import Mathlib

/-!
Shallow embedding of the credential / validation core of the
Patient-monitor backend (`src/monitor/backend/src/auth.rs` and
`src/monitor/backend/src/validation.rs`), together with theorems about it.

Rust strings are modelled as Lean `String`; Rust's byte-oriented
`str::len` is modelled by `rust_len` (the UTF-8 byte count of the
character sequence).  Database and bcrypt effects are modelled by
passing their outcomes as explicit parameters.
-/

namespace Monitor

/-- UTF-8 byte size of one character, as Rust counts it. -/
def char_utf8_size (c : Char) : Nat :=
  if c.toNat < 0x80 then 1
  else if c.toNat < 0x800 then 2
  else if c.toNat < 0x10000 then 3
  else 4

/-- Rust `str::len`: the UTF-8 byte length of the string. -/
def rust_len (s : String) : Nat :=
  (s.data.map char_utf8_size).sum

/-- ASCII lowercasing of one character; models Rust `to_lowercase` on the
ASCII inputs all patterns in this codebase consist of. -/
def lower_char (c : Char) : Char :=
  if 0x41 ≤ c.toNat ∧ c.toNat ≤ 0x5a then Char.ofNat (c.toNat + 32) else c

/-- Rust `str::to_lowercase`, restricted to ASCII case mapping. -/
def lower_ascii (s : String) : String :=
  ⟨s.data.map lower_char⟩

instance {ε α : Type} [DecidableEq ε] [DecidableEq α] : DecidableEq (Except ε α) := by
  intro a b
  cases a <;> cases b
  case error.error x y =>
    exact decidable_of_iff (x = y)
      (by constructor <;> (intro h; first | exact congrArg _ h | (cases h; rfl)))
  case ok.ok x y =>
    exact decidable_of_iff (x = y)
      (by constructor <;> (intro h; first | exact congrArg _ h | (cases h; rfl)))
  all_goals exact isFalse (by intro h; cases h)

/-- Whether `pat` occurs at the head of `hay`. -/
def starts_list : List Char → List Char → Bool
  | _, [] => true
  | [], _ :: _ => false
  | x :: xs, y :: ys => x = y && starts_list xs ys

/-- Whether `pat` occurs as a contiguous sublist of `hay`. -/
def occurs_in (pat : List Char) : List Char → Bool
  | [] => pat.isEmpty
  | x :: rest => starts_list (x :: rest) pat || occurs_in pat rest

/-- Rust `str::contains(pat)`: substring test. -/
def contains_sub (hay pat : String) : Bool :=
  occurs_in pat.data hay.data

/-- Healthcare provider roles (`enum Cadre` in auth.rs). -/
inductive Cadre where
  | physician
  | nurse
  | physiotherapist
  | caretaker
deriving DecidableEq, Repr

/-- `impl Display for Cadre`. -/
def Cadre.toText : Cadre → String
  | .physician => "physician"
  | .nurse => "nurse"
  | .physiotherapist => "physiotherapist"
  | .caretaker => "caretaker"

/-- `impl FromStr for Cadre`: match on the lowercased input. -/
def Cadre.fromText (s : String) : Except String Cadre :=
  if lower_ascii s = "physician" then .ok .physician
  else if lower_ascii s = "nurse" then .ok .nurse
  else if lower_ascii s = "physiotherapist" then .ok .physiotherapist
  else if lower_ascii s = "caretaker" then .ok .caretaker
  else .error ("Unknown cadre: " ++ s)

/-- `struct User` (auth.rs): the identity row as stored. -/
structure User where
  id : Int
  username : String
  fullname : String
  email : String
  cadre : String
  password_hash : String
  created_at : Int
deriving DecidableEq, Repr

/-- `struct UserInfo` (auth.rs): outward identity view, no hash field. -/
structure UserInfo where
  id : Int
  username : String
  fullname : String
  email : String
  cadre : String
deriving DecidableEq, Repr

/-- `struct Claims` (auth.rs): JWT claims; timestamps in epoch seconds. -/
structure Claims where
  sub : String
  username : String
  cadre : String
  exp : Int
  iat : Int
deriving DecidableEq, Repr

/-- `struct SignupRequest` (auth.rs). -/
structure SignupRequest where
  fullname : String
  username : String
  email : String
  cadre : String
  password : String
deriving DecidableEq, Repr

/-- `struct LoginRequest` (auth.rs). -/
structure LoginRequest where
  username : String
  password : String
deriving DecidableEq, Repr

/-- Modelled from the spec: the external `jsonwebtoken` crate's signed
token.  The signature field binds the signing secret to the exact claims,
modelling an unforgeable signature scheme. -/
structure Token where
  claims : Claims
  sig : String × Claims
deriving DecidableEq, Repr

/-- Process environment consumed by the token service: the raw
`JWT_SECRET` variable and the parsed `TOKEN_EXPIRATION_HOURS` variable. -/
structure AuthEnv where
  jwt_secret_var : Option String
  token_hours_var : Option Int
deriving DecidableEq, Repr

/-- `JWT_SECRET` static: env var with a development fallback. -/
def JWT_SECRET (env : AuthEnv) : String :=
  env.jwt_secret_var.getD "development_only_secret_replace_in_production"

/-- `TOKEN_EXPIRATION_HOURS` static: env var parse with default 24. -/
def TOKEN_EXPIRATION_HOURS (env : AuthEnv) : Int :=
  env.token_hours_var.getD 24

/-- Modelled from the spec: `jsonwebtoken::encode` — serialize the claims
and sign them with the secret. -/
def jwt_encode (secret : String) (claims : Claims) : Token :=
  ⟨claims, (secret, claims)⟩

/-- Modelled from the spec: `jsonwebtoken::decode` with default
validation — accept exactly when the signature matches this secret and
`exp` has not elapsed (reject when `exp ≤ now`); both failures collapse
to the single `none` outcome. -/
def jwt_decode (secret : String) (now : Int) (t : Token) : Option Claims :=
  if t.sig = (secret, t.claims) ∧ now < t.claims.exp then some t.claims else none

/-- `generate_token` (auth.rs): claims built from the user, `iat = now`,
`exp = now + hours`, signed with the process secret. -/
def generate_token (env : AuthEnv) (now : Int) (user : User) : Token :=
  jwt_encode (JWT_SECRET env)
    { sub := toString user.id
      username := user.username
      cadre := user.cadre
      exp := now + TOKEN_EXPIRATION_HOURS env * 3600
      iat := now }

/-- `verify_token` (auth.rs): decode against the same process secret. -/
def verify_token (env : AuthEnv) (now : Int) (t : Token) : Option Claims :=
  jwt_decode (JWT_SECRET env) now t

/-- JSON values as produced by the handlers (serde serialization). -/
inductive JVal where
  | str : String → JVal
  | num : Int → JVal
  | jbool : Bool → JVal
  | tok : Token → JVal
  | obj : List (String × JVal) → JVal

mutual

/-- All object keys occurring anywhere in a JSON value. -/
def JVal.allKeys : JVal → List String
  | .str _ => []
  | .num _ => []
  | .jbool _ => []
  | .tok _ => []
  | .obj fs => allKeysFields fs

/-- All object keys in a field list, including nested objects. -/
def allKeysFields : List (String × JVal) → List String
  | [] => []
  | (k, v) :: rest => k :: (JVal.allKeys v ++ allKeysFields rest)

end

/-- `enum ValidationError` (validation.rs). -/
inductive ValidationError where
  | InvalidUsername : String → ValidationError
  | InvalidEmail : String → ValidationError
  | InvalidInput : String → ValidationError
  | PotentialSQLInjection : String → ValidationError
  | PotentialXSS : String → ValidationError
  | InvalidRange : String → ValidationError
  | InvalidFHIR : String → ValidationError
  | TooLong : String → ValidationError
  | TooShort : String → ValidationError
deriving DecidableEq, Repr

/-- Alternatives of `SQL_INJECTION_REGEX`, a case-insensitive keyword list. -/
def SQL_KEYWORDS : List String :=
  ["union", "select", "insert", "update", "delete", "drop", "create",
   "alter", "exec", "execute", "script", "javascript", "<script"]

/-- Alternatives of `XSS_REGEX`, a case-insensitive pattern list. -/
def XSS_PATTERNS : List String :=
  ["<script", "javascript:", "onerror=", "onload=", "onclick=",
   "<iframe", "<object", "<embed"]

/-- `Regex::is_match` for a `(?i)(p1|p2|...)` alternation of literal
ASCII patterns: some pattern occurs in the lowercased input. -/
def regex_any_ci (pats : List String) (input : String) : Bool :=
  pats.any (fun p => occurs_in p.data (lower_ascii input).data)

/-- `check_sql_injection` (validation.rs). -/
def check_sql_injection (input : String) : Except ValidationError Unit :=
  if regex_any_ci SQL_KEYWORDS input then
    .error (.PotentialSQLInjection "Input contains suspicious SQL keywords")
  else .ok ()

/-- `check_xss` (validation.rs). -/
def check_xss (input : String) : Except ValidationError Unit :=
  if regex_any_ci XSS_PATTERNS input then
    .error (.PotentialXSS "Input contains suspicious script patterns")
  else .ok ()

/-- Rust `str::replace` for a single-character pattern: every occurrence
of `c` is replaced by `rep`. -/
def replace_char (c : Char) (rep : List Char) (l : List Char) : List Char :=
  l.foldr (fun x acc => if x = c then rep ++ acc else x :: acc) []

/-- Body of `sanitize_html` (validation.rs) on the character sequence:
the six sequential replaces, in the source's order (`&` first). -/
def sanitize_list (l : List Char) : List Char :=
  replace_char '/' "&#x2F;".data
    (replace_char '\'' "&#x27;".data
      (replace_char '"' "&quot;".data
        (replace_char '>' "&gt;".data
          (replace_char '<' "&lt;".data
            (replace_char '&' "&amp;".data l)))))

/-- `sanitize_html` (validation.rs). -/
def sanitize_html (input : String) : String :=
  ⟨sanitize_list input.data⟩

/-- Spec-side description of the escaping, for comparison: each of the
six special characters maps to its entity, all others stay. -/
def escape_char_spec (c : Char) : List Char :=
  if c = '&' then "&amp;".data
  else if c = '<' then "&lt;".data
  else if c = '>' then "&gt;".data
  else if c = '"' then "&quot;".data
  else if c = '\'' then "&#x27;".data
  else if c = '/' then "&#x2F;".data
  else [c]

/-- `validate_text_input` (validation.rs): SQL check, then XSS check,
then return the sanitized string. -/
def validate_text_input (input : String) (_field_name : String) :
    Except ValidationError String :=
  match check_sql_injection input with
  | .error e => .error e
  | .ok _ =>
    match check_xss input with
    | .error e => .error e
    | .ok _ => .ok (sanitize_html input)

/-- Character class `[a-zA-Z0-9_-]` of `USERNAME_REGEX`. -/
def username_char (c : Char) : Bool :=
  (0x61 ≤ c.toNat && c.toNat ≤ 0x7a) ||
  (0x41 ≤ c.toNat && c.toNat ≤ 0x5a) ||
  (0x30 ≤ c.toNat && c.toNat ≤ 0x39) ||
  c = '_' || c = '-'

/-- `USERNAME_REGEX.is_match`: full match of `^[a-zA-Z0-9_-]{3,30}$`. -/
def username_regex_match (s : String) : Bool :=
  decide (3 ≤ s.data.length) && decide (s.data.length ≤ 30) &&
  s.data.all username_char

/-- `validate_username` (validation.rs): empty check, byte-length checks,
then the pattern. -/
def validate_username (username : String) : Except ValidationError Unit :=
  if username = "" then
    .error (.InvalidUsername "Username cannot be empty")
  else if rust_len username < 3 then
    .error (.TooShort "Username must be at least 3 characters")
  else if rust_len username > 30 then
    .error (.TooLong "Username must be at most 30 characters")
  else if ¬ username_regex_match username then
    .error (.InvalidUsername
      "Username can only contain letters, numbers, underscore, and hyphen")
  else .ok ()

/-- Serde serialization of `UserInfo` (all five fields, no hash). -/
def serialize_user_info (u : UserInfo) : JVal :=
  .obj [("id", .num u.id), ("username", .str u.username),
        ("fullname", .str u.fullname), ("email", .str u.email),
        ("cadre", .str u.cadre)]

/-- Serde serialization of `User`: `password_hash` carries
`#[serde(skip_serializing)]`, so it is omitted. -/
def serialize_user (u : User) : JVal :=
  .obj [("id", .num u.id), ("username", .str u.username),
        ("fullname", .str u.fullname), ("email", .str u.email),
        ("cadre", .str u.cadre), ("created_at", .num u.created_at)]

/-- The `UserInfo` each handler builds from a `User` row. -/
def user_info_of (u : User) : UserInfo :=
  ⟨u.id, u.username, u.fullname, u.email, u.cadre⟩

/-- Serde serialization of `ErrorResponse { error }`. -/
def err_body (msg : String) : JVal :=
  .obj [("error", .str msg)]

/-- An HTTP response: status code and JSON body. -/
structure HttpResponse where
  status : Nat
  body : JVal

/-- Error mapping of the INSERT in `create_user` (auth.rs): uniqueness
violations by field, everything else formatted with the raw error text. -/
def map_insert_error (e : String) : String :=
  if contains_sub e "unique" then
    if contains_sub e "username" then "Username already exists"
    else if contains_sub e "email" then "Email already exists"
    else "User already exists"
  else "Database error: " ++ e

/-- `create_user` (auth.rs).  The bcrypt, connection and INSERT effects
are passed in as their outcomes: `hash_result` is `hash_password` on the
request's password, `conn_result` is `db.get_client()`, `insert_result`
is the parameterized INSERT returning the new row. -/
def create_user (signup : SignupRequest)
    (hash_result : Except String String)
    (conn_result : Except String Unit)
    (insert_result : Except String User) : Except String User :=
  match Cadre.fromText signup.cadre with
  | .error e => .error e
  | .ok _ =>
    match hash_result with
    | .error e => .error ("Failed to hash password: " ++ e)
    | .ok _ =>
      match conn_result with
      | .error e => .error ("Database connection error: " ++ e)
      | .ok _ =>
        match insert_result with
        | .error e => .error (map_insert_error e)
        | .ok row => .ok row

/-- Response shaping after `create_user` in `signup_handler`:
201 with the `UserInfo` on success, 400 with the error string otherwise. -/
def signup_response_of : Except String User → HttpResponse
  | .ok user =>
    ⟨201, .obj [("message", .str "Account created successfully"),
                ("user", serialize_user_info (user_info_of user))]⟩
  | .error e => ⟨400, err_body e⟩

/-- `signup_handler` (auth.rs): length and strength checks, then
delegation to `create_user`. -/
def signup_handler (body : SignupRequest)
    (hash_result : Except String String)
    (conn_result : Except String Unit)
    (insert_result : Except String User) : HttpResponse :=
  if rust_len body.username < 3 then
    ⟨400, err_body "Username must be at least 3 characters"⟩
  else if rust_len body.password < 8 then
    ⟨400, err_body "Password must be at least 8 characters"⟩
  else
    let has_uppercase := body.password.data.any Char.isUpper
    let has_number := body.password.data.any Char.isDigit
    if ¬ has_uppercase ∨ ¬ has_number then
      ⟨400, err_body
        "Password must contain at least one uppercase letter and one number"⟩
    else
      signup_response_of (create_user body hash_result conn_result insert_result)

/-- `login_handler` (auth.rs).  `lookup_result` is the outcome of
`find_user_by_username`; `pw_result` is the outcome of `verify_password`
on the found user's stored hash. -/
def login_handler (_body : LoginRequest)
    (lookup_result : Except String (Option User))
    (pw_result : User → Except String Bool)
    (env : AuthEnv) (now : Int) : HttpResponse :=
  match lookup_result with
  | .error _ => ⟨500, err_body "Internal server error"⟩
  | .ok none => ⟨401, err_body "Invalid username or password"⟩
  | .ok (some user) =>
    match pw_result user with
    | .ok true =>
      ⟨200, .obj [("token", .tok (generate_token env now user)),
                  ("user", serialize_user_info (user_info_of user))]⟩
    | .ok false => ⟨401, err_body "Invalid username or password"⟩
    | .error _ => ⟨500, err_body "Internal server error"⟩

/-- `value_str.starts_with("Bearer ")`: the exact, case-sensitive check,
on the character sequence (the 7 bytes of the literal are 7 ASCII chars). -/
def has_bearer (s : String) : Bool :=
  starts_list s.data "Bearer ".data

/-- `&value_str[7..]`: the remainder after the 7-byte scheme, taken on
the character sequence (valid because the checked 7 bytes are ASCII). -/
def bearer_rest (s : String) : String :=
  ⟨s.data.drop 7⟩

/-- `verify_handler` (auth.rs).  `auth_header` is the request's
authorization header value; `vt` is `verify_token` on a token string. -/
def verify_handler (auth_header : Option String)
    (vt : String → Option Claims) : HttpResponse :=
  match auth_header with
  | none => ⟨401, err_body "Missing authorization header"⟩
  | some value_str =>
    if has_bearer value_str then
      match vt (bearer_rest value_str) with
      | some claims =>
        ⟨200, .obj [("valid", .jbool true),
                    ("username", .str claims.username),
                    ("cadre", .str claims.cadre)]⟩
      | none => ⟨401, err_body "Invalid or expired token"⟩
    else ⟨401, err_body "Invalid authorization header format"⟩

/-- `me_handler` (auth.rs).  `lookup` is `find_user_by_username` keyed by
the verified claims' username. -/
def me_handler (auth_header : Option String)
    (vt : String → Option Claims)
    (lookup : String → Except String (Option User)) : HttpResponse :=
  match auth_header with
  | none => ⟨401, err_body "Missing authorization header"⟩
  | some value_str =>
    if has_bearer value_str then
      match vt (bearer_rest value_str) with
      | none => ⟨401, err_body "Invalid or expired token"⟩
      | some claims =>
        match lookup claims.username with
        | .ok (some user) => ⟨200, serialize_user_info (user_info_of user)⟩
        | .ok none => ⟨404, err_body "User not found"⟩
        | .error _ => ⟨500, err_body "Internal server error"⟩
    else ⟨401, err_body "Invalid authorization header"⟩

/-- `extract_user_from_request` (auth.rs): bearer extraction for
protected routes, `none` on any failure. -/
def extract_user_from_request (auth_header : Option String)
    (vt : String → Option Claims) : Option Claims :=
  match auth_header with
  | none => none
  | some value_str =>
    if has_bearer value_str then vt (bearer_rest value_str)
    else none

/-- A stored row as the INSERT would return it. -/
def sr_good_row : User :=
  ⟨1, "newuser1", "Full Name", "new@example.com", "nurse", "H", 0⟩

/-- A signup request whose cadre does not parse. -/
def sr_badcadre : SignupRequest :=
  ⟨"Full Name", "newuser1", "new@example.com", "boss", "Secret123"⟩

/-- A signup request with a valid cadre and a policy-passing password. -/
def sr_good : SignupRequest :=
  ⟨"Full Name", "newuser1", "new@example.com", "nurse", "Secret123"⟩

/-! ## Helper lemmas -/

theorem replace_char_cons (c : Char) (rep : List Char) (x : Char) (l : List Char) :
    replace_char c rep (x :: l) =
      if x = c then rep ++ replace_char c rep l else x :: replace_char c rep l := rfl

theorem replace_char_append (c : Char) (rep : List Char) (a b : List Char) :
    replace_char c rep (a ++ b) = replace_char c rep a ++ replace_char c rep b := by
  induction a with
  | nil => rfl
  | cons x xs ih =>
    rw [List.cons_append, replace_char_cons, replace_char_cons, ih]
    by_cases h : x = c <;> simp [h]

theorem sanitize_list_append (a b : List Char) :
    sanitize_list (a ++ b) = sanitize_list a ++ sanitize_list b := by
  simp [sanitize_list, replace_char_append]

theorem sanitize_list_single (x : Char) :
    sanitize_list [x] = escape_char_spec x := by
  by_cases h1 : x = '&'
  · subst h1; rfl
  by_cases h2 : x = '<'
  · subst h2; rfl
  by_cases h3 : x = '>'
  · subst h3; rfl
  by_cases h4 : x = '"'
  · subst h4; rfl
  by_cases h5 : x = '\''
  · subst h5; rfl
  by_cases h6 : x = '/'
  · subst h6; rfl
  simp [sanitize_list, replace_char, escape_char_spec, h1, h2, h3, h4, h5, h6]

theorem sanitize_list_eq_spec (l : List Char) :
    sanitize_list l = l.foldr (fun c acc => escape_char_spec c ++ acc) [] := by
  induction l with
  | nil => rfl
  | cons x xs ih =>
    have hsplit : x :: xs = [x] ++ xs := rfl
    rw [hsplit, sanitize_list_append, sanitize_list_single]
    simp [ih]

theorem starts_list_self_append (pat l : List Char) :
    starts_list (pat ++ l) pat = true := by
  induction pat with
  | nil => simp only [List.nil_append]; cases l <;> rfl
  | cons x xs ih => simp [starts_list, ih]

theorem has_bearer_append (t : String) :
    has_bearer ("Bearer " ++ t) = true := by
  unfold has_bearer
  rw [String.data_append]
  exact starts_list_self_append _ _

theorem bearer_rest_append (t : String) :
    bearer_rest ("Bearer " ++ t) = t := by
  unfold bearer_rest
  rw [String.data_append]
  have h7 : ("Bearer ".data).length = 7 := rfl
  rw [← h7, List.drop_left]

/-! ## Claims -/

/-- C10: for every Cadre value, parsing its display form round-trips;
parsing is invariant under letter case (any string whose lowercasing is a
role's display form parses to that role); every other string fails with
an Unknown-cadre error carrying the input. -/
theorem c10_cadre_display_fromstr_roundtrip :
    (∀ c : Cadre, Cadre.fromText (Cadre.toText c) = .ok c) ∧
    (∀ (s : String) (c : Cadre),
      lower_ascii s = Cadre.toText c → Cadre.fromText s = .ok c) ∧
    (∀ s : String, (∀ c : Cadre, lower_ascii s ≠ Cadre.toText c) →
      Cadre.fromText s = .error ("Unknown cadre: " ++ s)) := by
  refine ⟨?_, ?_, ?_⟩
  · intro c; cases c <;> decide
  · intro s c h; cases c <;> simp_all [Cadre.fromText, Cadre.toText]
  · intro s h
    have h1 := h .physician
    have h2 := h .nurse
    have h3 := h .physiotherapist
    have h4 := h .caretaker
    simp [Cadre.toText] at h1 h2 h3 h4
    simp [Cadre.fromText, h1, h2, h3, h4]

/-- Witness for C10: a mixed-case variant parses; a non-role fails. -/
theorem c10_witness :
    Cadre.fromText "NuRsE" = .ok .nurse ∧
    Cadre.fromText "doctor" = .error ("Unknown cadre: " ++ "doctor") :=
  ⟨c10_cadre_display_fromstr_roundtrip.2.1 "NuRsE" .nurse (by decide),
   c10_cadre_display_fromstr_roundtrip.2.2 "doctor" (by intro c; cases c <;> decide)⟩

/-- C8: validate_username rejects empty input before any length or
pattern check; for non-empty input it returns TooShort under 3 bytes,
TooLong over 30 bytes, InvalidUsername when a character falls outside
letters, digits, underscore, hyphen; and the concrete cases "ab",
31 times a, "user@name", "john_doe" behave as stated. -/
theorem c8_validate_username_branches :
    (validate_username "" = .error (.InvalidUsername "Username cannot be empty")) ∧
    (∀ s : String, s ≠ "" → rust_len s < 3 →
      validate_username s = .error (.TooShort "Username must be at least 3 characters")) ∧
    (∀ s : String, s ≠ "" → 30 < rust_len s →
      validate_username s = .error (.TooLong "Username must be at most 30 characters")) ∧
    (∀ s : String, s ≠ "" → ¬ rust_len s < 3 → ¬ 30 < rust_len s →
      (∃ c ∈ s.data, username_char c = false) →
      validate_username s = .error (.InvalidUsername
        "Username can only contain letters, numbers, underscore, and hyphen")) ∧
    validate_username "ab" = .error (.TooShort "Username must be at least 3 characters") ∧
    validate_username ⟨List.replicate 31 'a'⟩ =
      .error (.TooLong "Username must be at most 30 characters") ∧
    validate_username "user@name" = .error (.InvalidUsername
      "Username can only contain letters, numbers, underscore, and hyphen") ∧
    validate_username "john_doe" = .ok () := by
  refine ⟨by decide, ?_, ?_, ?_, by decide, by decide, by decide, by decide⟩
  · intro s hne hlt
    simp [validate_username, hne, hlt]
  · intro s hne hgt
    have hge : ¬ rust_len s < 3 := by omega
    simp [validate_username, hne, hge, hgt]
  · intro s hne h3 h30 hex
    have hall : s.data.all username_char = false := by
      rcases hex with ⟨c, hc, hfc⟩
      apply Bool.eq_false_iff.mpr
      intro hall
      rw [List.all_eq_true] at hall
      have := hall c hc
      rw [hfc] at this
      cases this
    have hmatch : username_regex_match s = false := by
      simp [username_regex_match, hall]
    simp [validate_username, hne, h3, h30, hmatch]

/-- Witness for C8: the branch implications applied at fresh inputs. -/
theorem c8_witness :
    validate_username "xy" = .error (.TooShort "Username must be at least 3 characters") ∧
    validate_username ⟨List.replicate 32 'b'⟩ =
      .error (.TooLong "Username must be at most 30 characters") ∧
    validate_username "user name" = .error (.InvalidUsername
      "Username can only contain letters, numbers, underscore, and hyphen") :=
  ⟨c8_validate_username_branches.2.1 "xy" (by decide) (by decide),
   c8_validate_username_branches.2.2.1 ⟨List.replicate 32 'b'⟩ (by decide) (by decide),
   c8_validate_username_branches.2.2.2.1 "user name" (by decide) (by decide) (by decide)
     ⟨' ', by decide, by decide⟩⟩

/-- C6: validate_text_input runs the SQL-injection check, then the XSS
check, returning the flagged error without sanitizing; only when both
pass does it return the HTML-escaped input; the escaping maps exactly
the six characters to entities (all others are kept), and
sanitize_html of a script tag is the escaped form. -/
theorem c6_validate_text_input_gate :
    (∀ input fn : String, regex_any_ci SQL_KEYWORDS input = true →
      validate_text_input input fn =
        .error (.PotentialSQLInjection "Input contains suspicious SQL keywords")) ∧
    (∀ input fn : String, regex_any_ci SQL_KEYWORDS input = false →
      regex_any_ci XSS_PATTERNS input = true →
      validate_text_input input fn =
        .error (.PotentialXSS "Input contains suspicious script patterns")) ∧
    (∀ input fn : String, regex_any_ci SQL_KEYWORDS input = false →
      regex_any_ci XSS_PATTERNS input = false →
      validate_text_input input fn = .ok (sanitize_html input)) ∧
    (∀ input : String, sanitize_html input =
      ⟨input.data.foldr (fun c acc => escape_char_spec c ++ acc) []⟩) ∧
    sanitize_html "<script>" = "&lt;script&gt;" := by
  refine ⟨?_, ?_, ?_, ?_, by decide⟩
  · intro input fn h
    simp [validate_text_input, check_sql_injection, h]
  · intro input fn hs hx
    simp [validate_text_input, check_sql_injection, check_xss, hs, hx]
  · intro input fn hs hx
    simp [validate_text_input, check_sql_injection, check_xss, hs, hx]
  · intro input
    show (⟨sanitize_list input.data⟩ : String) = _
    rw [sanitize_list_eq_spec]

/-- Witness for C6: the gate applied at concrete flagged and clean
inputs. -/
theorem c6_witness :
    validate_text_input "SELECT * FROM users" "note" =
      .error (.PotentialSQLInjection "Input contains suspicious SQL keywords") ∧
    validate_text_input "<img onerror=x>" "note" =
      .error (.PotentialXSS "Input contains suspicious script patterns") ∧
    validate_text_input "hello world" "note" = .ok (sanitize_html "hello world") :=
  ⟨c6_validate_text_input_gate.1 "SELECT * FROM users" "note" (by decide),
   c6_validate_text_input_gate.2.1 "<img onerror=x>" "note" (by decide) (by decide),
   c6_validate_text_input_gate.2.2.1 "hello world" "note" (by decide) (by decide)⟩

/-- C2: verify_token rejects a correctly signed token whose exp has
elapsed, and rejects a token signed with a secret other than the process
secret; both cases yield the identical single outcome `none`, so a
caller cannot tell a tampered token from an expired one. -/
theorem c2_verify_token_rejects_expired_and_tampered :
    ∀ (env : AuthEnv) (now : Int) (claims : Claims) (s : String),
      (claims.exp ≤ now →
        verify_token env now (jwt_encode (JWT_SECRET env) claims) = none) ∧
      (s ≠ JWT_SECRET env →
        verify_token env now (jwt_encode s claims) = none) := by
  intro env now claims s
  constructor
  · intro h
    simp [verify_token, jwt_decode, jwt_encode, show ¬ now < claims.exp from by omega]
  · intro hs
    simp [verify_token, jwt_decode, jwt_encode, hs]

/-- Witness for C2: an expired signed token and a token under a foreign
secret are both rejected at concrete inputs. -/
theorem c2_witness :
    verify_token ⟨some "k", some 1⟩ 100
      (jwt_encode (JWT_SECRET ⟨some "k", some 1⟩) ⟨"1", "u", "nurse", 50, 26⟩) = none ∧
    verify_token ⟨some "k", some 1⟩ 0
      (jwt_encode "other" ⟨"1", "u", "nurse", 50, 26⟩) = none :=
  ⟨(c2_verify_token_rejects_expired_and_tampered ⟨some "k", some 1⟩ 100
      ⟨"1", "u", "nurse", 50, 26⟩ "other").1 (by decide),
   (c2_verify_token_rejects_expired_and_tampered ⟨some "k", some 1⟩ 0
      ⟨"1", "u", "nurse", 50, 26⟩ "other").2 (by decide)⟩

/-- C3: verifying a generated token under the same process secret,
strictly before expiry, succeeds with claims carrying the user's
username, cadre, id rendered as text, and exp equal to iat plus the
configured hours (times 3600 seconds), the hours defaulting to 24 when
the environment variable is absent. -/
theorem c3_generate_verify_roundtrip :
    ∀ (env : AuthEnv) (now now2 : Int) (u : User),
      now2 < now + TOKEN_EXPIRATION_HOURS env * 3600 →
      verify_token env now2 (generate_token env now u) =
        some { sub := toString u.id, username := u.username, cadre := u.cadre,
               exp := now + TOKEN_EXPIRATION_HOURS env * 3600, iat := now } ∧
      (generate_token env now u).claims.exp =
        (generate_token env now u).claims.iat + TOKEN_EXPIRATION_HOURS env * 3600 ∧
      (env.token_hours_var = none → TOKEN_EXPIRATION_HOURS env = 24) := by
  intro env now now2 u h
  refine ⟨?_, rfl, ?_⟩
  · simp [verify_token, jwt_decode, generate_token, jwt_encode, h]
  · intro hnone
    simp [TOKEN_EXPIRATION_HOURS, hnone]

/-- Witness for C3: a concrete user's token verifies before expiry with
the expected claims, under a missing hours variable (default 24). -/
theorem c3_witness :
    verify_token ⟨some "k", none⟩ 100
      (generate_token ⟨some "k", none⟩ 0 ⟨7, "ann", "Ann A", "a@b.c", "nurse", "H", 0⟩) =
      some { sub := "7", username := "ann", cadre := "nurse", exp := 86400, iat := 0 } ∧
    TOKEN_EXPIRATION_HOURS ⟨some "k", none⟩ = 24 := by
  have h := c3_generate_verify_roundtrip ⟨some "k", none⟩ 0 100
    ⟨7, "ann", "Ann A", "a@b.c", "nurse", "H", 0⟩ (by decide)
  exact ⟨h.1, h.2.2 rfl⟩

/-- C4: a login whose username matches no identity and a login whose
password fails verification produce identical responses: the same 401
classification and the same generic body. -/
theorem c4_login_failure_indistinguishable :
    ∀ (b1 b2 : LoginRequest) (pw1 pw2 : User → Except String Bool) (u : User)
      (env : AuthEnv) (now : Int),
      pw2 u = .ok false →
      login_handler b1 (.ok none) pw1 env now =
        ⟨401, err_body "Invalid username or password"⟩ ∧
      login_handler b2 (.ok (some u)) pw2 env now =
        ⟨401, err_body "Invalid username or password"⟩ ∧
      login_handler b1 (.ok none) pw1 env now =
        login_handler b2 (.ok (some u)) pw2 env now := by
  intro b1 b2 pw1 pw2 u env now hpw
  have h1 : login_handler b1 (.ok none) pw1 env now =
      ⟨401, err_body "Invalid username or password"⟩ := rfl
  have h2 : login_handler b2 (.ok (some u)) pw2 env now =
      ⟨401, err_body "Invalid username or password"⟩ := by
    simp only [login_handler, hpw]
  exact ⟨h1, h2, h1.trans h2.symm⟩

/-- Witness for C4: concrete unknown-user and wrong-password logins
yield the same concrete response. -/
theorem c4_witness :
    login_handler ⟨"ghost", "pw"⟩ (.ok none) (fun _ => .ok false) ⟨some "k", none⟩ 0 =
      login_handler ⟨"ann", "wrong"⟩
        (.ok (some ⟨7, "ann", "Ann A", "a@b.c", "nurse", "H", 0⟩))
        (fun _ => .ok false) ⟨some "k", none⟩ 0 :=
  (c4_login_failure_indistinguishable ⟨"ghost", "pw"⟩ ⟨"ann", "wrong"⟩
    (fun _ => .ok false) (fun _ => .ok false)
    ⟨7, "ann", "Ann A", "a@b.c", "nurse", "H", 0⟩ ⟨some "k", none⟩ 0 rfl).2.2

/-- C7: the signup handler rejects usernames under 3 bytes, passwords
under 8 bytes, and passwords lacking an uppercase letter or a digit,
each with its message, independently of the storage outcomes; only a
request passing all checks is delegated to credential creation. -/
theorem c7_signup_validation_gate :
    ∀ (body : SignupRequest) (h : Except String String)
      (c : Except String Unit) (i : Except String User),
      (rust_len body.username < 3 →
        signup_handler body h c i =
          ⟨400, err_body "Username must be at least 3 characters"⟩) ∧
      (¬ rust_len body.username < 3 → rust_len body.password < 8 →
        signup_handler body h c i =
          ⟨400, err_body "Password must be at least 8 characters"⟩) ∧
      (¬ rust_len body.username < 3 → ¬ rust_len body.password < 8 →
        (body.password.data.any Char.isUpper = false ∨
         body.password.data.any Char.isDigit = false) →
        signup_handler body h c i =
          ⟨400, err_body
            "Password must contain at least one uppercase letter and one number"⟩) ∧
      (¬ rust_len body.username < 3 → ¬ rust_len body.password < 8 →
        body.password.data.any Char.isUpper = true →
        body.password.data.any Char.isDigit = true →
        signup_handler body h c i = signup_response_of (create_user body h c i)) := by
  intro body h c i
  refine ⟨?_, ?_, ?_, ?_⟩
  · intro h1
    simp [signup_handler, h1]
  · intro h1 h2
    simp [signup_handler, h1, h2]
  · intro h1 h2 h3
    rcases h3 with h3 | h3 <;> simp [signup_handler, h1, h2, h3]
  · intro h1 h2 h3 h4
    simp [signup_handler, h1, h2, h3, h4]

/-- Witness for C7: each gate applied at a concrete request. -/
theorem c7_witness :
    signup_handler ⟨"F", "ab", "a@b.c", "nurse", "Secret123"⟩ (.ok "H") (.ok ()) (.ok sr_good_row) =
      ⟨400, err_body "Username must be at least 3 characters"⟩ ∧
    signup_handler ⟨"F", "newuser1", "a@b.c", "nurse", "Sh0rt"⟩ (.ok "H") (.ok ()) (.ok sr_good_row) =
      ⟨400, err_body "Password must be at least 8 characters"⟩ ∧
    signup_handler ⟨"F", "newuser1", "a@b.c", "nurse", "lowercase1"⟩ (.ok "H") (.ok ()) (.ok sr_good_row) =
      ⟨400, err_body "Password must contain at least one uppercase letter and one number"⟩ ∧
    signup_handler sr_good (.ok "H") (.ok ()) (.ok sr_good_row) =
      signup_response_of (create_user sr_good (.ok "H") (.ok ()) (.ok sr_good_row)) :=
  ⟨(c7_signup_validation_gate ⟨"F", "ab", "a@b.c", "nurse", "Secret123"⟩
      (.ok "H") (.ok ()) (.ok sr_good_row)).1 (by decide),
   (c7_signup_validation_gate ⟨"F", "newuser1", "a@b.c", "nurse", "Sh0rt"⟩
      (.ok "H") (.ok ()) (.ok sr_good_row)).2.1 (by decide) (by decide),
   (c7_signup_validation_gate ⟨"F", "newuser1", "a@b.c", "nurse", "lowercase1"⟩
      (.ok "H") (.ok ()) (.ok sr_good_row)).2.2.1 (by decide) (by decide)
      (Or.inl (by decide)),
   (c7_signup_validation_gate sr_good
      (.ok "H") (.ok ()) (.ok sr_good_row)).2.2.2 (by decide) (by decide)
      (by decide) (by decide)⟩

/-- C9: no response of signup, login, verify, or who-am-i carries a
password_hash key anywhere in its body; the UserInfo serialization has
no such field, and the User serialization skips it. -/
theorem c9_password_hash_never_serialized :
    (∀ u : User, ((serialize_user u).allKeys).contains "password_hash" = false) ∧
    (∀ u : UserInfo, ((serialize_user_info u).allKeys).contains "password_hash" = false) ∧
    (∀ (body : SignupRequest) (h : Except String String) (c : Except String Unit)
      (i : Except String User),
      (((signup_handler body h c i).body).allKeys).contains "password_hash" = false) ∧
    (∀ (body : LoginRequest) (lk : Except String (Option User))
      (pw : User → Except String Bool) (env : AuthEnv) (now : Int),
      (((login_handler body lk pw env now).body).allKeys).contains "password_hash" = false) ∧
    (∀ (hd : Option String) (vt : String → Option Claims),
      (((verify_handler hd vt).body).allKeys).contains "password_hash" = false) ∧
    (∀ (hd : Option String) (vt : String → Option Claims)
      (lookup : String → Except String (Option User)),
      (((me_handler hd vt lookup).body).allKeys).contains "password_hash" = false) := by
  refine ⟨fun u => rfl, fun u => rfl, ?_, ?_, ?_, ?_⟩
  · intro body h c i
    simp only [signup_handler]
    split_ifs with h1 h2 h3
    · rfl
    · rfl
    · rfl
    · rcases create_user body h c i with e | u <;> rfl
  · intro body lk pw env now
    rcases lk with e | ou
    · rfl
    · rcases ou with _ | u
      · rfl
      · rcases hpw : pw u with e | b
        · simp [login_handler, hpw, err_body, JVal.allKeys, allKeysFields]
        · rcases b <;>
            simp [login_handler, hpw, err_body, JVal.allKeys, allKeysFields,
              serialize_user_info, user_info_of]
  · intro hd vt
    unfold verify_handler
    rcases hd with _ | s
    · rfl
    · by_cases hb : has_bearer s = true
      · simp only [if_pos hb]
        rcases vt (bearer_rest s) with _ | cl <;> rfl
      · simp only [if_neg hb]
        rfl
  · intro hd vt lookup
    rcases hd with _ | s
    · rfl
    · by_cases hb : has_bearer s = true
      · rcases hv : vt (bearer_rest s) with _ | cl
        · simp [me_handler, hb, hv, err_body, JVal.allKeys, allKeysFields]
        · rcases hlk : lookup cl.username with e | ou
          · simp [me_handler, hb, hv, hlk, err_body, JVal.allKeys, allKeysFields]
          · rcases ou with _ | u <;>
              simp [me_handler, hb, hv, hlk, err_body, JVal.allKeys, allKeysFields,
                serialize_user_info, user_info_of]
      · simp [me_handler, hb, err_body, JVal.allKeys, allKeysFields]

/-- Counterexample for C5: the rejections are not collapsed to one
message — a missing header and a wrong-scheme header produce different
response bodies. -/
theorem c5_counterexample_distinct_messages :
    (verify_handler none (fun _ => none)).body ≠
      (verify_handler (some "Token abc") (fun _ => none)).body := by
  show err_body "Missing authorization header" ≠
    err_body "Invalid authorization header format"
  intro h
  simp [err_body] at h

/-- C5 (amended): the token is verified only when the header starts with
the exact case-sensitive "Bearer " scheme; a missing header, another
scheme, or a failing token each yield a 401 rejection — with distinct
diagnostic messages rather than one collapsed message — and the
middleware extraction never yields a default identity. -/
theorem c5_amended_bearer_extraction :
    ∀ (vt : String → Option Claims) (lookup : String → Except String (Option User))
      (s t : String) (claims : Claims),
      (verify_handler none vt = ⟨401, err_body "Missing authorization header"⟩) ∧
      (has_bearer s = false →
        verify_handler (some s) vt =
          ⟨401, err_body "Invalid authorization header format"⟩) ∧
      (vt t = none →
        verify_handler (some ("Bearer " ++ t)) vt =
          ⟨401, err_body "Invalid or expired token"⟩) ∧
      (vt t = some claims →
        verify_handler (some ("Bearer " ++ t)) vt =
          ⟨200, .obj [("valid", .jbool true), ("username", .str claims.username),
            ("cadre", .str claims.cadre)]⟩) ∧
      (me_handler none vt lookup = ⟨401, err_body "Missing authorization header"⟩) ∧
      (has_bearer s = false →
        me_handler (some s) vt lookup = ⟨401, err_body "Invalid authorization header"⟩) ∧
      (vt t = none →
        me_handler (some ("Bearer " ++ t)) vt lookup =
          ⟨401, err_body "Invalid or expired token"⟩) ∧
      (extract_user_from_request none vt = none) ∧
      (has_bearer s = false → extract_user_from_request (some s) vt = none) ∧
      (extract_user_from_request (some ("Bearer " ++ t)) vt = vt t) := by
  intro vt lookup s t claims
  refine ⟨rfl, ?_, ?_, ?_, rfl, ?_, ?_, rfl, ?_, ?_⟩
  · intro hs; simp [verify_handler, hs]
  · intro hv; simp [verify_handler, has_bearer_append, bearer_rest_append, hv]
  · intro hv; simp [verify_handler, has_bearer_append, bearer_rest_append, hv]
  · intro hs; simp [me_handler, hs]
  · intro hv; simp [me_handler, has_bearer_append, bearer_rest_append, hv]
  · intro hs; simp [extract_user_from_request, hs]
  · simp [extract_user_from_request, has_bearer_append, bearer_rest_append]

/-- Witness for C5 (amended): concrete lower-case scheme, failing token,
succeeding token, and middleware inputs. -/
theorem c5_witness :
    verify_handler (some "bearer abc") (fun _ => none) =
      ⟨401, err_body "Invalid authorization header format"⟩ ∧
    verify_handler (some ("Bearer " ++ "abc")) (fun _ => none) =
      ⟨401, err_body "Invalid or expired token"⟩ ∧
    verify_handler (some ("Bearer " ++ "good"))
        (fun _ => some ⟨"1", "u", "nurse", 2, 1⟩) =
      ⟨200, .obj [("valid", .jbool true), ("username", .str "u"),
        ("cadre", .str "nurse")]⟩ ∧
    me_handler (some "Basic abc") (fun _ => none) (fun _ => .ok none) =
      ⟨401, err_body "Invalid authorization header"⟩ ∧
    me_handler (some ("Bearer " ++ "abc")) (fun _ => none) (fun _ => .ok none) =
      ⟨401, err_body "Invalid or expired token"⟩ ∧
    extract_user_from_request (some "bearer abc") (fun _ => none) = none :=
  ⟨(c5_amended_bearer_extraction (fun _ => none) (fun _ => .ok none)
      "bearer abc" "abc" ⟨"1", "u", "nurse", 2, 1⟩).2.1 (by decide),
   (c5_amended_bearer_extraction (fun _ => none) (fun _ => .ok none)
      "bearer abc" "abc" ⟨"1", "u", "nurse", 2, 1⟩).2.2.1 rfl,
   (c5_amended_bearer_extraction (fun _ => some ⟨"1", "u", "nurse", 2, 1⟩)
      (fun _ => .ok none) "bearer abc" "good" ⟨"1", "u", "nurse", 2, 1⟩).2.2.2.1 rfl,
   (c5_amended_bearer_extraction (fun _ => none) (fun _ => .ok none)
      "Basic abc" "abc" ⟨"1", "u", "nurse", 2, 1⟩).2.2.2.2.2.1 (by decide),
   (c5_amended_bearer_extraction (fun _ => none) (fun _ => .ok none)
      "Basic abc" "abc" ⟨"1", "u", "nurse", 2, 1⟩).2.2.2.2.2.2.1 rfl,
   (c5_amended_bearer_extraction (fun _ => none) (fun _ => .ok none)
      "bearer abc" "abc" ⟨"1", "u", "nurse", 2, 1⟩).2.2.2.2.2.2.2.2.1 (by decide)⟩

/-- C1: the cadre parse happens first and rejects independently of every
storage outcome; uniqueness violations map to the three field-specific
messages; but a generic storage failure is answered with the raw
database error text embedded in the message the handler returns — the
no-leak part of the claim does not hold on this code. -/
theorem c1_create_user_error_mapping :
    (∀ (h : Except String String) (c : Except String Unit) (i : Except String User),
      create_user sr_badcadre h c i = .error "Unknown cadre: boss") ∧
    create_user sr_good (.ok "H") (.ok ())
      (.error "duplicate key value violates unique constraint users_username_key") =
      .error "Username already exists" ∧
    create_user sr_good (.ok "H") (.ok ())
      (.error "duplicate key value violates unique constraint users_email_key") =
      .error "Email already exists" ∧
    create_user sr_good (.ok "H") (.ok ()) (.error "violates unique constraint") =
      .error "User already exists" ∧
    create_user sr_good (.ok "H") (.ok ()) (.error "connection reset by peer") =
      .error "Database error: connection reset by peer" ∧
    signup_handler sr_good (.ok "H") (.ok ()) (.error "connection reset by peer") =
      ⟨400, err_body "Database error: connection reset by peer"⟩ ∧
    contains_sub "Database error: connection reset by peer" "connection reset by peer" =
      true := by
  refine ⟨?_, rfl, rfl, rfl, rfl, rfl, by decide⟩
  intro h c i
  have hcadre : Cadre.fromText sr_badcadre.cadre = .error "Unknown cadre: boss" := by
    decide
  simp [create_user, hcadre]

end Monitor
